import Mathlib

/-!
Verification of the Bioreactor heater-control core: a shallow embedding of
the HeaterController, AC_Heater, PIDController and AutoTuningPIDController
classes (heater_controller.py, ac_heater.py, pid_controller.py,
auto_tuning_pid.py), with theorems settling the stated properties.

Machine floats are modelled as rationals; the asynchronous zero-cross task
is modelled as a step function on the task state, taking the sampled edge
count and the current monotonic time as inputs and returning the new state
together with the assert time of the firing pulse, when one is issued.
Python exceptions are modelled with Except over an error type.
-/

/-- Error values standing for the Python exceptions that the heater code can
raise: TypeError (None used in arithmetic), a failed temperature read, and
the RuntimeError that wraps any exception caught in a task loop. -/
inductive PyErr where
  | typeErr : PyErr
  | readErr : PyErr
  | runtimeErr : PyErr → PyErr
deriving DecidableEq

/-- State of the HeaterController class (heater_controller.py): the stored
duty cycle, the safety ceiling max_duty_cycle, and the on/off flag named
state in the source. Pin objects and the PID reference are external. -/
structure HeaterController where
  duty_cycle : ℚ
  max_duty_cycle : ℚ
  state : Bool
deriving DecidableEq

/-- HeaterController.set_duty_cycle: stores min(duty_cycle, max_duty_cycle)
and logs; no exception path and no lower clamp in the source. -/
def HeaterController.set_duty_cycle (h : HeaterController) (duty_cycle : ℚ) :
    HeaterController :=
  { h with duty_cycle := min duty_cycle h.max_duty_cycle }

/-- HeaterController.turn_on: sets the operational state flag. -/
def HeaterController.turn_on (h : HeaterController) : HeaterController :=
  { h with state := true }

/-- HeaterController.turn_off: clears the operational state flag. -/
def HeaterController.turn_off (h : HeaterController) : HeaterController :=
  { h with state := false }

/-- State of the PIDController class (pid_controller.py): gains, setpoint,
integral accumulator, previous error and previous timestamp. -/
structure PIDController where
  Kp : ℚ
  Ki : ℚ
  Kd : ℚ
  setpoint : ℚ
  integral : ℚ
  prev_error : ℚ
  prev_time : ℚ
deriving DecidableEq

/-- PIDController.compute: returns the PID output and the updated state.
Mirrors the source: error and delta_time are computed first; when
delta_time is nonpositive the call returns 0 with the state untouched;
otherwise the proportional, integral and derivative terms are combined and
integral, prev_error and prev_time are updated. The time.monotonic() call
is the explicit current_time argument. -/
def PIDController.compute (s : PIDController) (current_value current_time : ℚ) :
    ℚ × PIDController :=
  let error := s.setpoint - current_value
  let delta_time := current_time - s.prev_time
  if delta_time ≤ 0 then (0, s)
  else
    let P := s.Kp * error
    let integral := s.integral + error * delta_time
    let I := s.Ki * integral
    let derivative := (error - s.prev_error) / delta_time
    let D := s.Kd * derivative
    (P + I + D,
      { s with integral := integral, prev_error := error, prev_time := current_time })

/-- PIDController.reset_integral: zeroes the accumulator. -/
def PIDController.reset_integral (s : PIDController) : PIDController :=
  { s with integral := 0 }

/-- State carried by the AC_Heater zero-cross task (ac_heater.py): the
half-cycle estimate, duty cycle, on/off flag (named state in the source),
the self-adjusting debounce window, the timestamp of the last accepted
zero-cross event, and the loop-local previous_count counter snapshot. -/
structure AC_Heater where
  ac_half_cycle_time : ℚ
  duty_cycle : ℚ
  state : Bool
  debounce_time : ℚ
  last_zero_cross_time : ℚ
  previous_count : ℕ
deriving DecidableEq

/-- One iteration of AC_Heater.zero_cross_task, given the sampled hardware
edge count and the current monotonic time. Mirrors the source order: when
the count advanced, first update ac_half_cycle_time and debounce_time from
the gap since the last accepted event (skipped while that timestamp is
still 0), then apply the debounce acceptance test with the just-updated
window; on acceptance record the count and timestamp and, when the heater
state flag is set, schedule the firing pulse after the phase delay
(1 - duty_cycle/100) * ac_half_cycle_time. The returned option holds the
assert time of the pulse. -/
def AC_Heater.zero_cross_step (s : AC_Heater) (count : ℕ) (now : ℚ) :
    AC_Heater × Option ℚ :=
  if s.previous_count < count then
    let s1 :=
      if s.last_zero_cross_time ≠ 0 then
        let cycle_time := now - s.last_zero_cross_time
        { s with ac_half_cycle_time := cycle_time / 2,
                 debounce_time := (1 / 10) * (cycle_time / 2) }
      else s
    if s1.debounce_time ≤ now - s1.last_zero_cross_time then
      let s2 := { s1 with previous_count := count, last_zero_cross_time := now }
      if s2.state then
        (s2, some (now + (1 - s2.duty_cycle / 100) * s2.ac_half_cycle_time))
      else (s2, none)
    else (s1, none)
  else (s, none)

/-- Run of the zero-cross task over a list of sampled (count, time)
observations, collecting every issued pulse assert time. -/
def AC_Heater.zero_cross_run (s : AC_Heater) (events : List (ℕ × ℚ)) :
    AC_Heater × List ℚ :=
  events.foldl
    (fun acc ev =>
      let r := AC_Heater.zero_cross_step acc.1 ev.1 ev.2
      (r.1, acc.2 ++ r.2.toList))
    (s, [])

/-- Clamp bound min_critical_gain set in AutoTuningPIDController.__init__. -/
def min_critical_gain : ℚ := 50

/-- Clamp bound max_critical_gain set in AutoTuningPIDController.__init__. -/
def max_critical_gain : ℚ := 200

/-- Multiplier gain_increase_rate set in AutoTuningPIDController.__init__. -/
def gain_increase_rate : ℚ := 11 / 10

/-- Multiplier gain_decrease_rate set in AutoTuningPIDController.__init__. -/
def gain_decrease_rate : ℚ := 9 / 10

/-- Noise-rejection oscillation_threshold set in __init__. -/
def oscillation_threshold : ℚ := 1 / 20

/-- State of the AutoTuningPIDController class (auto_tuning_pid.py).
critical_gain and critical_period start as Python None, modelled by
Option. The inner pid_controller object is not modelled: no claim touches
it beyond the setpoint assignment, which has no further effect here. -/
structure AutoTuningPIDController where
  Kp : ℚ
  Ki : ℚ
  Kd : ℚ
  critical_gain : Option ℚ
  critical_period : Option ℚ
  oscillation_data : List (ℚ × ℚ)
  tuning_complete : Bool
deriving DecidableEq

/-- AutoTuningPIDController.__init__ with the given initial gains:
critical_gain and critical_period are None, the sample list is empty and
tuning_complete is False. -/
def AutoTuningPIDController.mk_init (initial_Kp initial_Ki initial_Kd : ℚ) :
    AutoTuningPIDController :=
  { Kp := initial_Kp, Ki := initial_Ki, Kd := initial_Kd,
    critical_gain := none, critical_period := none,
    oscillation_data := [], tuning_complete := false }

/-- AutoTuningPIDController.detect_oscillations on the oscillation_data
list: while fewer than two samples are stored, append and report no
detection; otherwise compare the reading against the last stored sample
and, when the drop exceeds oscillation_threshold, append the sample and
return the time since that stored sample as the period. A sample that
triggers no detection after warm-up is not stored. The time.monotonic()
call is the explicit current_time argument. -/
def detect_oscillations (data : List (ℚ × ℚ)) (current_time temperature_reading : ℚ) :
    (Bool × Option ℚ) × List (ℚ × ℚ) :=
  if data.length < 2 then
    ((false, none), data ++ [(current_time, temperature_reading)])
  else
    match data.getLast? with
    | none => ((false, none), data)
    | some (prev_time, prev_temp) =>
      if prev_temp > temperature_reading ∧
          |prev_temp - temperature_reading| > oscillation_threshold then
        ((true, some (current_time - prev_time)), data ++ [(current_time, temperature_reading)])
      else ((false, none), data)

/-- Run of detect_oscillations over a list of (time, temperature) samples,
collecting the (detected, period) results and the final stored list. -/
def run_detect_oscillations (data : List (ℚ × ℚ)) (samples : List (ℚ × ℚ)) :
    List (Bool × Option ℚ) × List (ℚ × ℚ) :=
  samples.foldl
    (fun acc sample =>
      let r := detect_oscillations acc.2 sample.1 sample.2
      (acc.1 ++ [r.1], r.2))
    ([], data)

/-- Numeric body of AutoTuningPIDController.adjust_critical_gain: multiply
by gain_decrease_rate on detection, by gain_increase_rate otherwise, then
clamp into the interval from min_critical_gain to max_critical_gain. -/
def adjust_critical_gain_num (critical_gain : ℚ) (oscillation_detected : Bool) : ℚ :=
  let g :=
    if oscillation_detected then critical_gain * gain_decrease_rate
    else critical_gain * gain_increase_rate
  min (max g min_critical_gain) max_critical_gain

/-- AutoTuningPIDController.adjust_critical_gain on the stored Optional
critical_gain: multiplying Python None by a float raises TypeError. -/
def adjust_critical_gain (critical_gain : Option ℚ) (oscillation_detected : Bool) :
    Except PyErr ℚ :=
  match critical_gain with
  | none => Except.error PyErr.typeErr
  | some g => Except.ok (adjust_critical_gain_num g oscillation_detected)

/-- AutoTuningPIDController.calculate_pid_parameters: Python tests
truthiness of critical_gain and critical_period, so None and the value 0
both select the failure branch (None, None, None), modelled as none. -/
def calculate_pid_parameters (critical_gain critical_period : Option ℚ) :
    Option (ℚ × ℚ × ℚ) :=
  match critical_gain, critical_period with
  | some Ku, some Pu =>
    if Ku ≠ 0 ∧ Pu ≠ 0 then
      let Kp := (6 / 10) * Ku
      some (Kp, 2 * Kp / Pu, Kp * Pu / 8)
    else none
  | _, _ => none

/-- AutoTuningPIDController.force_oscillation with the default step_size of
100: commands the heater duty cycle through set_duty_cycle. -/
def force_oscillation (h : HeaterController) : HeaterController :=
  h.set_duty_cycle 100

/-- One iteration of the auto_tune while-loop body: read the temperature
(the try-block can raise here), run detect_oscillations, run
adjust_critical_gain, and on detection record the period and mark tuning
complete. Any error is the caught exception of the except-block. -/
def tune_iteration (st : AutoTuningPIDController) (now : ℚ)
    (temp : Except PyErr ℚ) : Except PyErr AutoTuningPIDController :=
  match temp with
  | Except.error e => Except.error e
  | Except.ok temperature =>
    let r := detect_oscillations st.oscillation_data now temperature
    match adjust_critical_gain st.critical_gain r.1.1 with
    | Except.error e => Except.error e
    | Except.ok g =>
      Except.ok
        { st with
            oscillation_data := r.2,
            critical_gain := some g,
            critical_period := if r.1.1 then r.1.2 else st.critical_period,
            tuning_complete := if r.1.1 then true else st.tuning_complete }

/-- The auto_tune while-loop: while tuning_complete is false run
tune_iteration with the n-th sampling time and temperature result; the
except-block wraps any raised error in RuntimeError and re-raises. On
completion calculate_pid_parameters is returned. Fuel bounds the number of
iterations; none stands for a loop still running when fuel is exhausted. -/
def auto_tune_loop (times : ℕ → ℚ) (temps : ℕ → Except PyErr ℚ) :
    ℕ → ℕ → AutoTuningPIDController → Option (Except PyErr (Option (ℚ × ℚ × ℚ)))
  | 0, _, _ => none
  | fuel + 1, n, st =>
    if st.tuning_complete then
      some (Except.ok (calculate_pid_parameters st.critical_gain st.critical_period))
    else
      match tune_iteration st (times n) (temps n) with
      | Except.error e => some (Except.error (PyErr.runtimeErr e))
      | Except.ok st2 => auto_tune_loop times temps fuel (n + 1) st2

/-- AutoTuningPIDController.auto_tune: force the oscillation step input on
the heater, then run the sampling loop from the freshly initialized tuner
state. Returns the loop outcome together with the heater state as the
caller observes it afterwards; the loop body never touches the heater. -/
def auto_tune (h : HeaterController) (times : ℕ → ℚ)
    (temps : ℕ → Except PyErr ℚ) (fuel : ℕ) :
    Option (Except PyErr (Option (ℚ × ℚ × ℚ))) × HeaterController :=
  (auto_tune_loop times temps fuel 0 (AutoTuningPIDController.mk_init 1 0 0),
    force_oscillation h)

/-- Single-call clamp bound: adjust_critical_gain_num always lands inside
the interval from min_critical_gain to max_critical_gain. -/
theorem adjust_critical_gain_num_bounds (g : ℚ) (b : Bool) :
    min_critical_gain ≤ adjust_critical_gain_num g b ∧
      adjust_critical_gain_num g b ≤ max_critical_gain := by
  unfold adjust_critical_gain_num
  refine ⟨le_min (le_max_right _ _) ?_, min_le_right _ _⟩
  norm_num [min_critical_gain, max_critical_gain]

/-- C2 counterexample: the claim says the stored duty cycle is never
negative, but set_duty_cycle applies no lower clamp; with
max_duty_cycle = 30 the input -5 is stored as -5, which is negative. -/
theorem c2_counterexample :
    ¬ (0 ≤ (HeaterController.set_duty_cycle ⟨0, 30, false⟩ (-5)).duty_cycle) := by
  norm_num [HeaterController.set_duty_cycle]

/-- C2 (amended): set_duty_cycle always returns, storing exactly
min(x, max_duty_cycle); the stored value is nonnegative whenever both the
input and the ceiling are nonnegative, but a negative input is stored
unchanged since the source has no lower clamp. -/
theorem c2_set_duty_cycle_clamps (h : HeaterController) (x : ℚ) :
    (h.set_duty_cycle x).duty_cycle = min x h.max_duty_cycle ∧
      (0 ≤ x → 0 ≤ h.max_duty_cycle → 0 ≤ (h.set_duty_cycle x).duty_cycle) :=
  ⟨rfl, fun hx hm => le_min hx hm⟩

/-- C2 witness: instance of the amended claim at x = 80 with ceiling 30. -/
theorem c2_set_duty_cycle_clamps_witness :
    (0 ≤ (80 : ℚ)) ∧ (0 ≤ (30 : ℚ)) ∧
      0 ≤ (HeaterController.set_duty_cycle ⟨0, 30, false⟩ 80).duty_cycle :=
  ⟨by norm_num, by norm_num,
    (c2_set_duty_cycle_clamps ⟨0, 30, false⟩ 80).2 (by norm_num) (by norm_num)⟩

/-- C5 counterexample: with critical_gain set to 0 and critical_period set
to 10 (both set, in the sense of not-None), the claim demands the
Ziegler-Nichols triple, but the Python truthiness test sends the value 0
to the failure branch. -/
theorem c5_counterexample :
    calculate_pid_parameters (some 0) (some 10)
      ≠ some ((6 / 10) * 0, 2 * ((6 / 10) * 0) / 10, (6 / 10) * 0 * 10 / 8) := by
  simp [calculate_pid_parameters]

/-- C5 (amended): calculate_pid_parameters returns Kp = 0.6 Ku,
Ki = 2 Kp / Pu, Kd = Kp Pu / 8 when both critical values are set and
nonzero, and the failure value when either is unset (None) or zero; in
particular critical_gain = 100, critical_period = 10 give (60, 12, 75). -/
theorem c5_calculate_pid_parameters_truthy :
    (∀ Ku Pu : ℚ, Ku ≠ 0 → Pu ≠ 0 →
        calculate_pid_parameters (some Ku) (some Pu)
          = some ((6 / 10) * Ku, 2 * ((6 / 10) * Ku) / Pu, (6 / 10) * Ku * Pu / 8)) ∧
      (∀ p, calculate_pid_parameters none p = none) ∧
      (∀ g, calculate_pid_parameters g none = none) ∧
      calculate_pid_parameters (some 100) (some 10) = some (60, 12, 75) := by
  refine ⟨fun Ku Pu hK hP => ?_, fun p => by cases p <;> rfl,
    fun g => by cases g <;> rfl, ?_⟩
  · simp [calculate_pid_parameters, hK, hP]
  · norm_num [calculate_pid_parameters]

/-- C5 witness: instance of the amended claim at Ku = 100, Pu = 10. -/
theorem c5_calculate_pid_parameters_truthy_witness :
    ((100 : ℚ) ≠ 0) ∧ ((10 : ℚ) ≠ 0) ∧
      calculate_pid_parameters (some 100) (some 10)
        = some ((6 / 10) * 100, 2 * ((6 / 10) * 100) / 10, (6 / 10) * 100 * 10 / 8) :=
  ⟨by norm_num, by norm_num,
    c5_calculate_pid_parameters_truthy.1 100 10 (by norm_num) (by norm_num)⟩

/-- C6: from any starting numeric critical_gain and any sequence of
adjust_critical_gain calls with arbitrary oscillation flags, the value
after each call lies within the clamp interval, the clamp being applied
after every multiplicative adjustment. Stated for an arbitrary sequence
ending in a call, which covers the state after every call of any run. -/
theorem c6_critical_gain_stays_clamped (g : ℚ) (flags : List Bool) (b : Bool) :
    min_critical_gain ≤ List.foldl adjust_critical_gain_num g (flags ++ [b]) ∧
      List.foldl adjust_critical_gain_num g (flags ++ [b]) ≤ max_critical_gain := by
  rw [List.foldl_append]
  exact adjust_critical_gain_num_bounds _ b

/-- C8: a compute call with nonpositive elapsed time returns 0 and leaves
the whole PID state record unchanged. -/
theorem c8_compute_nonpositive_elapsed (s : PIDController)
    (current_value current_time : ℚ) (h : current_time - s.prev_time ≤ 0) :
    s.compute current_value current_time = (0, s) := by
  simp only [PIDController.compute]
  rw [if_pos h]

/-- C8 witness: a backward-clock call (now 9 against prev_time 10). -/
theorem c8_compute_nonpositive_elapsed_witness :
    ((9 : ℚ) - 10 ≤ 0) ∧
      PIDController.compute ⟨1, 1, 1, 5, 2, 3, 10⟩ 4 9 = (0, ⟨1, 1, 1, 5, 2, 3, 10⟩) :=
  ⟨by norm_num,
    c8_compute_nonpositive_elapsed ⟨1, 1, 1, 5, 2, 3, 10⟩ 4 9 (by norm_num)⟩

/-- C10 counterexample: with gains (0, 0, 1), setpoint 5, measured value 5
(error 0), zero integral accumulator but prev_error 1 and elapsed 1, the
derivative term makes compute return -1, not 0. -/
theorem c10_counterexample :
    (PIDController.compute ⟨0, 0, 1, 5, 0, 1, 0⟩ 5 1).1 ≠ 0 := by
  norm_num [PIDController.compute]

/-- C10 (amended): with error 0, zero integral accumulator and zero
prev_error, compute with positive elapsed time returns 0 for every gain
triple. -/
theorem c10_zero_error_zero_state_output (s : PIDController)
    (current_value current_time : ℚ) (hsp : s.setpoint = current_value)
    (hint : s.integral = 0) (hpe : s.prev_error = 0)
    (hdt : 0 < current_time - s.prev_time) :
    (s.compute current_value current_time).1 = 0 := by
  simp only [PIDController.compute]
  rw [if_neg (not_le.mpr hdt)]
  simp [hsp, hint, hpe, sub_self]

/-- C10 witness: instance of the amended claim with gains (2, 3, 4). -/
theorem c10_zero_error_zero_state_output_witness :
    ((7 : ℚ) = 7) ∧ ((0 : ℚ) = 0) ∧ ((0 : ℚ) = 0) ∧ (0 < (3 : ℚ) - 1) ∧
      (PIDController.compute ⟨2, 3, 4, 7, 0, 0, 1⟩ 7 3).1 = 0 :=
  ⟨rfl, rfl, rfl, by norm_num,
    c10_zero_error_zero_state_output ⟨2, 3, 4, 7, 0, 0, 1⟩ 7 3 rfl rfl rfl (by norm_num)⟩

/-- C1: evidence that the zero-cross task has no fault-timeout path. The
step function preserves the on/off flag in every branch (so the task can
never force it off or report a fault), and on the concrete trace with
edges at times 1 and 1001 — a 1000-second gap, beyond any fault timeout —
the task stays enabled, adopts the stale half-cycle estimate 500 and
issues a firing pulse at time 1251, 250 seconds after the last edge. -/
theorem c1_zero_cross_task_never_disables :
    (∀ (s : AC_Heater) (count : ℕ) (now : ℚ),
        ((AC_Heater.zero_cross_step s count now).1).state = s.state) ∧
      AC_Heater.zero_cross_run ⟨1/100, 50, true, 1/200, 0, 0⟩ [(1, 1), (2, 1001)]
        = (⟨500, 50, true, 50, 1001, 2⟩, [1 + 1/200, 1251]) := by
  constructor
  · intro s count now
    simp only [AC_Heater.zero_cross_step]
    split_ifs <;> rfl
  · norm_num [AC_Heater.zero_cross_run, AC_Heater.zero_cross_step]

/-- C4 counterexample: starting from the state left by an accepted edge at
time 1 (debounce window 1/200), a bounce edge only 1/1000 later changes
the half-cycle estimate even though it arrives inside the debounce window
in force when it is observed. -/
theorem c4_counterexample :
    ((AC_Heater.zero_cross_step ⟨1/100, 50, false, 1/200, 1, 1⟩ 2
          (1001/1000)).1).ac_half_cycle_time ≠ (1/100 : ℚ) ∧
      ¬ ((1/200 : ℚ) ≤ (1001/1000 : ℚ) - 1) := by
  constructor
  · norm_num [AC_Heater.zero_cross_step]
  · norm_num

/-- C4 (amended): the half-cycle estimate and the derived debounce window
are updated from every observed edge arriving once last_zero_cross_time is
nonzero, before the acceptance test; the test is then evaluated against
the freshly derived window and always passes (the gap is at least a tenth
of half of itself), so the edge is also accepted and the update is not
restricted to edges passing the previously derived window. -/
theorem c4_half_cycle_updated_before_debounce (s : AC_Heater) (count : ℕ)
    (now : ℚ) (hlast : s.last_zero_cross_time ≠ 0)
    (hcount : s.previous_count < count)
    (hmono : s.last_zero_cross_time ≤ now) :
    ((AC_Heater.zero_cross_step s count now).1).ac_half_cycle_time
        = (now - s.last_zero_cross_time) / 2 ∧
      ((AC_Heater.zero_cross_step s count now).1).debounce_time
        = (1 / 10) * ((now - s.last_zero_cross_time) / 2) ∧
      ((AC_Heater.zero_cross_step s count now).1).last_zero_cross_time = now := by
  have hgap : (0 : ℚ) ≤ now - s.last_zero_cross_time := sub_nonneg.mpr hmono
  have htest : (1 / 10) * ((now - s.last_zero_cross_time) / 2)
      ≤ now - s.last_zero_cross_time := by linarith
  simp only [AC_Heater.zero_cross_step]
  split_ifs
  all_goals exact ⟨rfl, rfl, rfl⟩

/-- C4 witness: instance of the amended claim at the bounce-edge state. -/
theorem c4_half_cycle_updated_before_debounce_witness :
    ((1 : ℚ) ≠ 0) ∧ (1 < 2) ∧ ((1 : ℚ) ≤ 1001/1000) ∧
      (((AC_Heater.zero_cross_step ⟨1/100, 50, false, 1/200, 1, 1⟩ 2
            (1001/1000)).1).ac_half_cycle_time = ((1001/1000 : ℚ) - 1) / 2 ∧
        ((AC_Heater.zero_cross_step ⟨1/100, 50, false, 1/200, 1, 1⟩ 2
            (1001/1000)).1).debounce_time
          = (1 / 10) * (((1001/1000 : ℚ) - 1) / 2) ∧
        ((AC_Heater.zero_cross_step ⟨1/100, 50, false, 1/200, 1, 1⟩ 2
            (1001/1000)).1).last_zero_cross_time = 1001/1000) :=
  ⟨by norm_num, by norm_num, by norm_num,
    c4_half_cycle_updated_before_debounce ⟨1/100, 50, false, 1/200, 1, 1⟩ 2
      (1001/1000) (by norm_num) (by norm_num) (by norm_num)⟩

/-- C3: adjusting a None critical_gain raises TypeError, so the very first
sampling iteration of auto_tune fails and the except-block re-raises as
RuntimeError: with successful temperature reads the loop returns exactly
that wrapped TypeError, with arbitrary reads it returns some wrapped
error, and no fuel amount ever makes auto_tune return tuned gains. -/
theorem c3_auto_tune_always_raises :
    (∀ b : Bool, adjust_critical_gain none b = Except.error PyErr.typeErr) ∧
      (∀ (times f : ℕ → ℚ) (fuel : ℕ),
        auto_tune_loop times (fun n => Except.ok (f n)) (fuel + 1) 0
            (AutoTuningPIDController.mk_init 1 0 0)
          = some (Except.error (PyErr.runtimeErr PyErr.typeErr))) ∧
      (∀ (times : ℕ → ℚ) (temps : ℕ → Except PyErr ℚ) (fuel : ℕ),
        ∃ e, auto_tune_loop times temps (fuel + 1) 0
            (AutoTuningPIDController.mk_init 1 0 0)
          = some (Except.error (PyErr.runtimeErr e))) ∧
      (∀ (times : ℕ → ℚ) (temps : ℕ → Except PyErr ℚ) (fuel : ℕ) (g : ℚ × ℚ × ℚ),
        auto_tune_loop times temps fuel 0 (AutoTuningPIDController.mk_init 1 0 0)
          ≠ some (Except.ok (some g))) := by
  have h3 : ∀ (times : ℕ → ℚ) (temps : ℕ → Except PyErr ℚ) (fuel : ℕ),
      ∃ e, auto_tune_loop times temps (fuel + 1) 0
          (AutoTuningPIDController.mk_init 1 0 0)
        = some (Except.error (PyErr.runtimeErr e)) := by
    intro times temps fuel
    cases htemp : temps 0 with
    | error e =>
      exact ⟨e, by simp [auto_tune_loop, tune_iteration, htemp,
        AutoTuningPIDController.mk_init]⟩
    | ok v =>
      exact ⟨PyErr.typeErr, by simp [auto_tune_loop, tune_iteration, htemp,
        detect_oscillations, adjust_critical_gain, AutoTuningPIDController.mk_init]⟩
  refine ⟨fun b => rfl, fun times f fuel => rfl, h3, ?_⟩
  intro times temps fuel g
  cases fuel with
  | zero => simp [auto_tune_loop]
  | succ fuel =>
    obtain ⟨e, he⟩ := h3 times temps fuel
    rw [he]
    simp

/-- C7: evidence that a fatal sampling failure does not return the heater
to the disabled state. For every run, the heater state auto_tune leaves
behind keeps the caller's on/off flag and holds the forced step duty cycle
min(100, max_duty_cycle); on the concrete run where the first temperature
read raises, the loop surfaces the wrapped RuntimeError (never swallowed)
while the heater stays enabled with the forced duty cycle 30. -/
theorem c7_tuning_failure_leaves_heater_on :
    (∀ (h : HeaterController) (times : ℕ → ℚ) (temps : ℕ → Except PyErr ℚ)
        (fuel : ℕ),
        ((auto_tune h times temps fuel).2).state = h.state ∧
          ((auto_tune h times temps fuel).2).duty_cycle = min 100 h.max_duty_cycle) ∧
      auto_tune ⟨0, 30, true⟩ (fun n => (n : ℚ))
          (fun _ => Except.error PyErr.readErr) 5
        = (some (Except.error (PyErr.runtimeErr PyErr.readErr)), ⟨30, 30, true⟩) := by
  constructor
  · exact fun h times temps fuel => ⟨rfl, rfl⟩
  · norm_num [auto_tune, auto_tune_loop, tune_iteration, force_oscillation,
      HeaterController.set_duty_cycle, AutoTuningPIDController.mk_init, min_def]

/-- C9 counterexample: detect_oscillations does not maintain the last two
samples. After the samples (1, 20), (2, 20.5), (3, 20.46) — the third
dropping by only 0.04, under the threshold — the stored list still holds
the first two samples and has discarded the newest one entirely, so the
retained pair is not the last two samples. -/
theorem c9_counterexample :
    (run_detect_oscillations [] [(1, 20), (2, 41/2), (3, 1023/50)]).2
        = [(1, 20), (2, 41/2)] ∧
      (run_detect_oscillations [] [(1, 20), (2, 41/2), (3, 1023/50)]).2
        ≠ [(2, 41/2), (3, 1023/50)] := by
  have habs : |(1/25 : ℚ)| = 1/25 := abs_of_pos (by norm_num)
  constructor <;>
    norm_num [run_detect_oscillations, detect_oscillations,
      oscillation_threshold, habs]

/-- C9 (amended): detect_oscillations retains the first two samples and
each detected peak in a growing list; after warm-up a peak is detected
exactly when the newest reading is lower than the last retained sample by
more than oscillation_threshold, and the returned period is the time since
that retained sample. For the samples 20.0, 20.5, 20.3 at increasing
timestamps, detection fires on the third sample with period t3 - t2. -/
theorem c9_detect_compares_last_retained :
    (∀ (data : List (ℚ × ℚ)) (now temp pt pv : ℚ),
        2 ≤ data.length → data.getLast? = some (pt, pv) →
        (((detect_oscillations data now temp).1.1 = true ↔
            oscillation_threshold < pv - temp) ∧
          ((detect_oscillations data now temp).1.1 = true →
            (detect_oscillations data now temp).1.2 = some (now - pt)))) ∧
      (∀ t1 t2 t3 : ℚ, t1 < t2 → t2 < t3 →
        (run_detect_oscillations [] [(t1, 20), (t2, 41/2), (t3, 203/10)]).1.getLast?
          = some (true, some (t3 - t2))) := by
  constructor
  · intro data now temp pt pv hlen hlast
    have hnl : ¬ data.length < 2 := not_lt.mpr hlen
    simp only [detect_oscillations, hnl, if_false, hlast]
    by_cases hc : pv > temp ∧ |pv - temp| > oscillation_threshold
    · have hd : oscillation_threshold < pv - temp := by
        have h2 := hc.2
        rwa [abs_of_pos (sub_pos.mpr hc.1)] at h2
      simp [hc, hd]
    · have hd : ¬ oscillation_threshold < pv - temp := by
        intro hlt
        have hpos : (0 : ℚ) < pv - temp :=
          lt_trans (by norm_num [oscillation_threshold]) hlt
        exact hc ⟨sub_pos.mp hpos, by rwa [abs_of_pos hpos]⟩
      simp [hc, hd]
  · intro t1 t2 t3 h12 h23
    have habs : |(1/5 : ℚ)| = 1/5 := abs_of_pos (by norm_num)
    norm_num [run_detect_oscillations, detect_oscillations,
      oscillation_threshold, habs]

/-- C9 witness: the amended claim at the retained list (1, 20), (2, 20.5)
with the reading 20.3 at time 3, and the scenario at times 1, 2, 3. -/
theorem c9_detect_compares_last_retained_witness :
    (2 ≤ ([(1, 20), (2, 41/2)] : List (ℚ × ℚ)).length) ∧
      ([(1, 20), (2, 41/2)] : List (ℚ × ℚ)).getLast? = some (2, 41/2) ∧
      (((detect_oscillations [(1, 20), (2, 41/2)] 3 (203/10)).1.1 = true ↔
          oscillation_threshold < 41/2 - 203/10) ∧
        ((detect_oscillations [(1, 20), (2, 41/2)] 3 (203/10)).1.1 = true →
          (detect_oscillations [(1, 20), (2, 41/2)] 3 (203/10)).1.2
            = some (3 - 2))) ∧
      ((1 : ℚ) < 2) ∧ ((2 : ℚ) < 3) ∧
      (run_detect_oscillations [] [((1 : ℚ), 20), (2, 41/2), (3, 203/10)]).1.getLast?
        = some (true, some (3 - 2)) :=
  ⟨by norm_num, rfl,
    c9_detect_compares_last_retained.1 [(1, 20), (2, 41/2)] 3 (203/10) 2 (41/2)
      (by norm_num) rfl,
    by norm_num, by norm_num,
    c9_detect_compares_last_retained.2 1 2 3 (by norm_num) (by norm_num)⟩
